import Mathlib

/-!
Verification of `src/index.js` (a daily-email automation script).

The script is embedded shallowly: JavaScript runtime values that can appear
in the script's data flow are modelled by `JValue`; the external JSON parser
(`JSON.parse`) is an abstract parameter `parse : String → Option JValue`
(`none` models a parse exception); external I/O outcomes (file read, API
call, mail send, file write) are explicit parameters.  An uncaught JavaScript
exception is modelled as `Except.error`.
-/

set_option maxRecDepth 4000

namespace DailyEmail

/-- JavaScript runtime values reachable in the script: the JSON data types
plus `NaN` (which `data.count += 1` can produce at runtime).  Numbers are
modelled as integers: every number in the script's data flow is an integer.
`undefined` is modelled as `Option.none` at use sites. -/
inductive JValue where
  | jnull
  | jnan
  | jbool (b : Bool)
  | jnum (n : Int)
  | jstr (s : String)
  | jarr (elems : List JValue)
  | jobj (fields : List (String × JValue))

namespace JValue

/-- JavaScript truthiness: `false`, `0`, `NaN`, `""`, `null`, are falsy;
objects and arrays (even empty) are truthy. -/
def truthy : JValue → Bool
  | jnull => false
  | jnan => false
  | jbool b => b
  | jnum n => n != 0
  | jstr s => s != ""
  | jarr _ => true
  | jobj _ => true

end JValue

/-- Property lookup `v[k]` as the script uses it: a field of an object, and
`undefined` (`none`) on everything else.  Objects produced by `JSON.parse`
have unique keys, so first-match lookup is exact. -/
def getField : JValue → String → Option JValue
  | JValue.jobj fs, k => (fs.find? (fun p => p.1 == k)).map Prod.snd
  | _, _ => none

/-- Property assignment on an object's field list: overwrite the first
binding of `k` in place, or append a new binding. -/
def setFields : List (String × JValue) → String → JValue → List (String × JValue)
  | [], k, v => [(k, v)]
  | (k0, v0) :: rest, k, v =>
      if k0 = k then (k, v) :: rest else (k0, v0) :: setFields rest k v

/-- Property assignment `v[k] = x`: updates objects; on primitives the
sloppy-mode assignment is silently ignored (the script is not strict mode).
Assignment on `null` cannot be reached in the script (destructuring `null`
throws earlier). -/
def setField : JValue → String → JValue → JValue
  | JValue.jobj fs, k, x => JValue.jobj (setFields fs k x)
  | v, _, _ => v

mutual

/-- JavaScript `ToString` for the values above (used by template literals
and by string concatenation). -/
def jsToString : JValue → String
  | JValue.jnull => "null"
  | JValue.jnan => "NaN"
  | JValue.jbool b => cond b "true" "false"
  | JValue.jnum n => toString n
  | JValue.jstr s => s
  | JValue.jobj _ => "[object Object]"
  | JValue.jarr xs => String.intercalate "," (jsArrParts xs)

/-- `Array.prototype.toString` pieces: elements joined by `","`, with `null`
elements rendered as the empty string. -/
def jsArrParts : List JValue → List String
  | [] => []
  | JValue.jnull :: rest => "" :: jsArrParts rest
  | v :: rest => jsToString v :: jsArrParts rest

end

/-- `ToString` where the value may be `undefined` (template literals render
`undefined` as the string "undefined"). -/
def jsToStringOpt : Option JValue → String
  | none => "undefined"
  | some v => jsToString v

/-- JavaScript `String.prototype.trim`: strip whitespace from both ends. -/
def jsTrim (s : String) : String :=
  String.mk (((s.data.dropWhile Char.isWhitespace).reverse.dropWhile Char.isWhitespace).reverse)

/-- `ToNumber` on a string (used when a string meets `>` or arithmetic):
empty/whitespace is `0`, otherwise an integer literal, otherwise `NaN`
(`none`).  Non-integer numerals do not occur in the script's data flow. -/
def strToNumber (s : String) : Option Int :=
  let t := jsTrim s
  if t = "" then some 0 else t.toInt?

/-- JavaScript `ToNumber` of a value; `none` is `NaN`. -/
def jsToNumber : JValue → Option Int
  | JValue.jnull => some 0
  | JValue.jnan => none
  | JValue.jbool b => some (cond b 1 0)
  | JValue.jnum n => some n
  | JValue.jstr s => strToNumber s
  | JValue.jarr xs => strToNumber (jsToString (JValue.jarr xs))
  | JValue.jobj _ => none

/-- JavaScript comparison `x > 0` where `x` may be `undefined`
(`undefined > 0` and `NaN > 0` are both `false`). -/
def jsGtZero : Option JValue → Bool
  | none => false
  | some v =>
    match jsToNumber v with
    | none => false
    | some n => n > 0

/-- JavaScript `x + 1` for the value of `data.count` (`+=` on objects /
arrays goes through `ToPrimitive`, which yields their string form). -/
def jsAdd1 : Option JValue → JValue
  | none => JValue.jnan
  | some (JValue.jnum n) => JValue.jnum (n + 1)
  | some JValue.jnan => JValue.jnan
  | some JValue.jnull => JValue.jnum 1
  | some (JValue.jbool b) => JValue.jnum (cond b 2 1)
  | some (JValue.jstr s) => JValue.jstr (s ++ "1")
  | some (JValue.jarr xs) => JValue.jstr (jsToString (JValue.jarr xs) ++ "1")
  | some (JValue.jobj _) => JValue.jstr ("[object Object]" ++ "1")

/-- `v.length`: arrays and strings have a length; on a plain object it is
ordinary property lookup; on other values it is `undefined`. -/
def jsLength : JValue → Option JValue
  | JValue.jarr xs => some (JValue.jnum xs.length)
  | JValue.jstr s => some (JValue.jnum s.length)
  | JValue.jobj fs => getField (JValue.jobj fs) "length"
  | _ => none

/-!  ### The script's definitions (`src/index.js`)  -/

/-- `index.js` line 31: the initial value of `data`, also the fallback when
reading/parsing `data.json` throws. -/
def defaultData : JValue :=
  JValue.jobj [("count", JValue.jnum 0), ("recent_emails", JValue.jarr [])]

/-- `index.js` lines 31-38: `data` after the guarded read+parse of
`data.json`.  `fileContents = none` models `readFileSync` throwing;
`parse s = none` models `JSON.parse` throwing.  Either exception is caught
and `data` keeps its default value. -/
def loadData (parse : String → Option JValue) (fileContents : Option String) : JValue :=
  match fileContents with
  | none => defaultData
  | some s => (parse s).getD defaultData

/-- `index.js` lines 46-51: the hard-coded system message. -/
def systemMessage : String :=
  "\nYou are a concerned United States Citizen, living in Arlington Texas. \nYour Senator is John Cornyn. You write a letter each day to Senator Cornyn \npleading with him to put a stop to the genocide being carried out by \nIsrael against the Palestinian people in Gaza.\n"

/-- `index.js` lines 55-60: `lastThreeEmailsText` in the branch where
`recent_emails` is an array with positive length: `Email ${i+1}: ${body}`
joined by blank lines, in array (chronological, oldest-first) order. -/
def lastThreeEmailsText (xs : List JValue) : String :=
  String.intercalate "\n\n"
    ((xs.enum).map (fun p => "Email " ++ toString (p.1 + 1) ++ ": " ++ jsToString p.2))

/-- `index.js` lines 66-86: the `userPrompt` template literal, with the
shared condition `recent_emails_count > 0` passed as `hasHistory` and the
already-computed `lastThreeEmailsText` passed as `listText`.  Braces in the
JSON example are written with `\x7b`/`\x7d` escapes. -/
def promptText (hasHistory : Bool) (listText : String) (count : Option JValue) : String :=
  "\n"
    ++ (if hasHistory then "Below are the most recent emails you have sent to Senator John Cornyn:\n" else "")
    ++ "\n\n" ++ listText
    ++ "\n\nTotal emails sent so far: " ++ jsToStringOpt count
    ++ ".\n\nToday, please compose a brand new letter to Senator Cornyn. The letter should be 100 words or less. \n\nIMPORTANT:\n1) Do NOT include any extraneous text or explanation outside of the JSON.\n2) Only return a JSON object in the format:\n\n\x7b\n  \"email_body\": \"Your new email content here\"\n\x7d\n"

/-- `index.js` line 54: `recent_emails ? recent_emails.length : 0`
(`undefined`/falsy history gives count `0`; a truthy value contributes its
`length` property, possibly `undefined`). -/
def recentEmailsCount (recent : Option JValue) : Option JValue :=
  match recent with
  | none => some (JValue.jnum 0)
  | some v => if JValue.truthy v then jsLength v else some (JValue.jnum 0)

/-- `index.js` lines 54-86: building `userPrompt` from the destructured
`count` and `recent_emails`.  This runs at module load; if
`recent_emails_count > 0` but `recent_emails` is not an array (e.g. a
non-empty string), `recent_emails.map` throws an uncaught `TypeError`,
modelled as `Except.error`. -/
def userPrompt (count recent : Option JValue) : Except String String :=
  if jsGtZero (recentEmailsCount recent) then
    match recent with
    | some (JValue.jarr xs) => Except.ok (promptText true (lastThreeEmailsText xs) count)
    | _ => Except.error "TypeError: recent_emails.map is not a function"
  else
    Except.ok (promptText false "" count)

/-- The value `generateNewEmail` resolves with: `null` (API failure) or a
JavaScript value (the `newEmailBody` variable). -/
inductive JSVal where
  | null
  | jval (v : JValue)

/-- Truthiness of the resolved value, as tested by `if (!newEmail)`. -/
def JSVal.truthy : JSVal → Bool
  | JSVal.null => false
  | JSVal.jval v => v.truthy

/-- `index.js` lines 111-123: the inner `try` block.  `newEmailBody` starts
as `""`; if the parsed reply's `email_body` is truthy it becomes that value,
otherwise the block throws (or `JSON.parse`/property access already threw)
and the `catch` only logs, leaving `""`.  Note the raw reply is never
assigned. -/
def extractEmailBody (parsedReply : Option JValue) : JValue :=
  match parsedReply with
  | none => JValue.jstr ""
  | some parsed =>
    match getField parsed "email_body" with
    | none => JValue.jstr ""
    | some v => if v.truthy then v else JValue.jstr ""

/-- `index.js` lines 96-130: `generateNewEmail`.  `apiResult = none` models
the API call (or reply access) throwing, caught by the outer `try` which
returns `null`; `apiResult = some content` is the reply text, which is
trimmed and parsed. -/
def generateNewEmail (parse : String → Option JValue) (apiResult : Option String) : JSVal :=
  match apiResult with
  | none => JSVal.null
  | some content => JSVal.jval (extractEmailBody (parse (jsTrim content)))

/-- The fixed envelope of `index.js` lines 147-152 with the body passed to
`sendMail` as `text`. -/
structure MailMessage where
  sender : String
  recipient : String
  subject : String
  text : JValue

/-- `index.js` lines 135-158: the one message handed to
`transporter.sendMail`.  A relay failure is caught inside `sendEmail` and
only logged, so the attempt itself is what is observable. -/
def sendEmail (emailBody : JValue) : MailMessage :=
  { sender := "\"Jeremiah Flickinger\" <jeremiahflickinger@gmail.com>"
    recipient := "jeremiahflickinger@gmail.com"
    subject := "Test email"
    text := emailBody }

/-- `index.js` lines 177-180: `push` the new body, then `shift` once if the
length exceeds 3. -/
def pushCapped (xs : List JValue) (b : JValue) : List JValue :=
  let pushed := xs ++ [b]
  if pushed.length > 3 then pushed.tail else pushed

/-- Observable outcome of one run: the prompt built at module load, the
messages handed to `sendMail`, the content handed to `writeFileSync`
(`none` when no write is attempted), and whether the write succeeded. -/
structure RunResult where
  prompt : String
  sent : List MailMessage
  writeAttempt : Option JValue
  writeOk : Bool

/-- `index.js` lines 30-189: the whole module run (top-level code plus the
main IIFE).  Parameters model the externals: `parse` is `JSON.parse`,
`fileContents` the guarded `readFileSync` result, `apiResult` the OpenAI
call, `sendFails`/`writeFails` whether `sendMail`/`writeFileSync` throw
(both throws are caught; `sendFails` changes nothing observable, a failed
write only fails to persist).  `Except.error` is an uncaught exception. -/
def runMain (parse : String → Option JValue) (fileContents : Option String)
    (apiResult : Option String) (_sendFails writeFails : Bool) :
    Except String RunResult :=
  let data := loadData parse fileContents
  -- line 43: `const { count, recent_emails } = data;` throws on `null`
  match data with
  | JValue.jnull => Except.error "TypeError: cannot destructure null"
  | _ =>
    let count := getField data "count"
    let recent := getField data "recent_emails"
    match userPrompt count recent with
    | Except.error e => Except.error e
    | Except.ok prompt =>
      match generateNewEmail parse apiResult with
      | JSVal.null =>
        Except.ok { prompt := prompt, sent := [], writeAttempt := none, writeOk := false }
      | JSVal.jval body =>
        if body.truthy then
          -- lines 170-180: send, then mutate `data`
          let data1 := setField data "count" (jsAdd1 (getField data "count"))
          match getField data1 "recent_emails" with
          | some (JValue.jarr xs) =>
            let data2 := setField data1 "recent_emails" (JValue.jarr (pushCapped xs body))
            Except.ok { prompt := prompt, sent := [sendEmail body],
                        writeAttempt := some data2, writeOk := !writeFails }
          | _ => Except.error "TypeError: data.recent_emails.push is not a function"
        else
          Except.ok { prompt := prompt, sent := [], writeAttempt := none, writeOk := false }

/-- Bodies handed to the mail relay during a run (empty if the run crashed
or exited early). -/
def runSentBodies (r : Except String RunResult) : List JValue :=
  match r with
  | Except.ok res => res.sent.map MailMessage.text
  | Except.error _ => []

/-- Store content handed to `writeFileSync` during a run (`none` if the run
crashed or never reached the write). -/
def runWritten (r : Except String RunResult) : Option JValue :=
  match r with
  | Except.ok res => res.writeAttempt
  | Except.error _ => none

/-- Whether the run terminated normally (no uncaught exception). -/
def runOk (r : Except String RunResult) : Bool :=
  match r with
  | Except.ok _ => true
  | Except.error _ => false

/-!  ### Concrete fixtures

Raw JSON texts paired with their actual `JSON.parse` results, and a parse
function that agrees with `JSON.parse` on each of them (and fails, like
`JSON.parse`, on everything else).  Braces inside string literals are
written with `\x7b`/`\x7d` escapes. -/

def storeABRaw : String := "\x7b\"count\": 2, \"recent_emails\": [\"A\", \"B\"]\x7d"

def storeABVal : JValue :=
  JValue.jobj [("count", JValue.jnum 2),
    ("recent_emails", JValue.jarr [JValue.jstr "A", JValue.jstr "B"])]

def storeABCRaw : String := "\x7b\"count\": 5, \"recent_emails\": [\"A\", \"B\", \"C\"]\x7d"

def storeABCVal : JValue :=
  JValue.jobj [("count", JValue.jnum 5),
    ("recent_emails", JValue.jarr [JValue.jstr "A", JValue.jstr "B", JValue.jstr "C"])]

def storeABCDRaw : String :=
  "\x7b\"count\": 0, \"recent_emails\": [\"A\", \"B\", \"C\", \"D\"]\x7d"

def storeABCDVal : JValue :=
  JValue.jobj [("count", JValue.jnum 0),
    ("recent_emails",
      JValue.jarr [JValue.jstr "A", JValue.jstr "B", JValue.jstr "C", JValue.jstr "D"])]

def storeEmptyObjRaw : String := "\x7b\x7d"

def storeCountOnlyRaw : String := "\x7b\"count\": 1\x7d"

def storeCountOnlyVal : JValue := JValue.jobj [("count", JValue.jnum 1)]

def replyCRaw : String := "\x7b\"email_body\": \"C\"\x7d"

def replyCVal : JValue := JValue.jobj [("email_body", JValue.jstr "C")]

def replyDRaw : String := "\x7b\"email_body\": \"D\"\x7d"

def replyDVal : JValue := JValue.jobj [("email_body", JValue.jstr "D")]

def replyERaw : String := "\x7b\"email_body\": \"E\"\x7d"

def replyEVal : JValue := JValue.jobj [("email_body", JValue.jstr "E")]

def replyHiRaw : String := "\x7b\"email_body\": \"Hi\"\x7d"

def replyHiVal : JValue := JValue.jobj [("email_body", JValue.jstr "Hi")]

def replyZeroRaw : String := "\x7b\"email_body\": 0\x7d"

def replyZeroVal : JValue := JValue.jobj [("email_body", JValue.jnum 0)]

def replyExtraRaw : String := "\x7b\"email_body\": 7, \"extra\": \"x\"\x7d"

def replyExtraVal : JValue :=
  JValue.jobj [("email_body", JValue.jnum 7), ("extra", JValue.jstr "x")]

def replyNotJsonRaw : String := "I cannot answer that."

/-- A parse oracle agreeing with `JSON.parse` on every fixture above and
throwing (`none`) elsewhere, in particular on `replyNotJsonRaw`. -/
def parseFix : String → Option JValue := fun s =>
  if s = storeABRaw then some storeABVal
  else if s = storeABCRaw then some storeABCVal
  else if s = storeABCDRaw then some storeABCDVal
  else if s = storeEmptyObjRaw then some (JValue.jobj [])
  else if s = storeCountOnlyRaw then some storeCountOnlyVal
  else if s = replyCRaw then some replyCVal
  else if s = replyDRaw then some replyDVal
  else if s = replyERaw then some replyEVal
  else if s = replyHiRaw then some replyHiVal
  else if s = replyZeroRaw then some replyZeroVal
  else if s = replyExtraRaw then some replyExtraVal
  else none

/-!  ### Helper lemmas  -/

theorem find?_setFields_self (fs : List (String × JValue)) (k : String) (x : JValue) :
    (setFields fs k x).find? (fun p => p.1 == k) = some (k, x) := by
  induction fs with
  | nil =>
    rw [setFields]
    exact List.find?_cons_of_pos _ (by simp)
  | cons hd tl ih =>
    obtain ⟨k0, v0⟩ := hd
    rw [setFields]
    by_cases h : k0 = k
    · rw [if_pos h]
      exact List.find?_cons_of_pos _ (by simp)
    · rw [if_neg h, List.find?_cons_of_neg _ (by simp [h])]
      exact ih

theorem find?_setFields_ne (fs : List (String × JValue)) (k k' : String) (x : JValue)
    (h : k' ≠ k) :
    (setFields fs k x).find? (fun p => p.1 == k') = fs.find? (fun p => p.1 == k') := by
  induction fs with
  | nil =>
    rw [setFields, List.find?_cons_of_neg _ (by simp [Ne.symm h])]
  | cons hd tl ih =>
    obtain ⟨k0, v0⟩ := hd
    rw [setFields]
    by_cases hk : k0 = k
    · subst hk
      rw [if_pos rfl,
        List.find?_cons_of_neg _ (by simp [Ne.symm h]),
        List.find?_cons_of_neg _ (by simp [Ne.symm h])]
    · rw [if_neg hk]
      by_cases hk' : k0 = k'
      · rw [List.find?_cons_of_pos _ (by simp [hk']),
          List.find?_cons_of_pos _ (by simp [hk'])]
      · rw [List.find?_cons_of_neg _ (by simp [hk']),
          List.find?_cons_of_neg _ (by simp [hk'])]
        exact ih

theorem getField_setField_self (fs : List (String × JValue)) (k : String) (x : JValue) :
    getField (setField (JValue.jobj fs) k x) k = some x := by
  simp [setField, getField, find?_setFields_self]

theorem getField_setField_ne (fs : List (String × JValue)) (k k' : String) (x : JValue)
    (h : k' ≠ k) :
    getField (setField (JValue.jobj fs) k x) k' = getField (JValue.jobj fs) k' := by
  simp [setField, getField, find?_setFields_ne fs k k' x h]

theorem jsGtZero_jnum (n : Int) : jsGtZero (some (JValue.jnum n)) = decide (0 < n) := rfl

theorem userPrompt_arr (c : Option JValue) (xs : List JValue) :
    userPrompt c (some (JValue.jarr xs)) =
      Except.ok (if 0 < xs.length then promptText true (lastThreeEmailsText xs) c
                 else promptText false "" c) := by
  have hcnt : recentEmailsCount (some (JValue.jarr xs))
      = some (JValue.jnum (xs.length : Int)) := rfl
  simp only [userPrompt, hcnt, jsGtZero_jnum]
  by_cases h : 0 < xs.length
  · have h' : (0 : Int) < (xs.length : Int) := by exact_mod_cast h
    simp [h, h']
  · have h' : ¬ (0 : Int) < (xs.length : Int) := by exact_mod_cast h
    simp [h, h']

/-- Characterization of a run that loads an object store whose
`recent_emails` is an array and whose generation step produced a truthy
body: exactly one send attempt and one write attempt happen, with the
mutations of `index.js` lines 174-180. -/
theorem runMain_good (parse : String → Option JValue) (fileContents apiResult : Option String)
    (sF wF : Bool) (fs : List (String × JValue)) (xs : List JValue) (body : JValue)
    (hload : loadData parse fileContents = JValue.jobj fs)
    (hrec : getField (JValue.jobj fs) "recent_emails" = some (JValue.jarr xs))
    (hgen : generateNewEmail parse apiResult = JSVal.jval body)
    (ht : body.truthy = true) :
    runMain parse fileContents apiResult sF wF =
      Except.ok
        { prompt := (if 0 < xs.length
              then promptText true (lastThreeEmailsText xs) (getField (JValue.jobj fs) "count")
              else promptText false "" (getField (JValue.jobj fs) "count")),
          sent := [sendEmail body],
          writeAttempt := some (setField
            (setField (JValue.jobj fs) "count" (jsAdd1 (getField (JValue.jobj fs) "count")))
            "recent_emails" (JValue.jarr (pushCapped xs body))),
          writeOk := !wF } := by
  have hne : getField (setField (JValue.jobj fs) "count"
      (jsAdd1 (getField (JValue.jobj fs) "count"))) "recent_emails"
      = some (JValue.jarr xs) := by
    rw [getField_setField_ne _ _ _ _ (by decide)]
    exact hrec
  simp only [runMain, hload, hrec, userPrompt_arr, hgen, ht, if_true, hne]

/-- Characterization of a run that loads an object store whose
`recent_emails` is an array but whose generation step resolved falsy: the
`if (!newEmail) return;` path taken with no crash. -/
theorem runMain_early (parse : String → Option JValue) (fileContents apiResult : Option String)
    (sF wF : Bool) (fs : List (String × JValue)) (xs : List JValue)
    (hload : loadData parse fileContents = JValue.jobj fs)
    (hrec : getField (JValue.jobj fs) "recent_emails" = some (JValue.jarr xs))
    (hno : (generateNewEmail parse apiResult).truthy = false) :
    runMain parse fileContents apiResult sF wF =
      Except.ok
        { prompt := (if 0 < xs.length
              then promptText true (lastThreeEmailsText xs) (getField (JValue.jobj fs) "count")
              else promptText false "" (getField (JValue.jobj fs) "count")),
          sent := [], writeAttempt := none, writeOk := false } := by
  simp only [runMain, hload, hrec, userPrompt_arr]
  cases hg : generateNewEmail parse apiResult with
  | null => rfl
  | jval body =>
    rw [hg] at hno
    simp only [JSVal.truthy] at hno
    simp [hno]

/-- `writeFileSync` throwing is caught and only logged: it affects nothing
observable except the success of the write itself. -/
theorem runMain_writeFails_independent (parse : String → Option JValue)
    (fileContents apiResult : Option String) (sF : Bool) :
    runSentBodies (runMain parse fileContents apiResult sF true)
      = runSentBodies (runMain parse fileContents apiResult sF false)
    ∧ runWritten (runMain parse fileContents apiResult sF true)
      = runWritten (runMain parse fileContents apiResult sF false) := by
  simp only [runMain]
  refine ⟨?_, ?_⟩ <;>
    · repeat' split
      all_goals simp_all [runSentBodies, runWritten]

/-- Characterization of a run whose generation step resolved falsy
(`null` or a falsy body): the `if (!newEmail) return;` path, no send and no
write; this also covers runs that crash before sending. -/
theorem runMain_falsy (parse : String → Option JValue) (fileContents apiResult : Option String)
    (sF wF : Bool)
    (hno : (generateNewEmail parse apiResult).truthy = false) :
    runSentBodies (runMain parse fileContents apiResult sF wF) = []
    ∧ runWritten (runMain parse fileContents apiResult sF wF) = none := by
  simp only [runMain]
  refine ⟨?_, ?_⟩ <;>
    · repeat' split
      all_goals simp_all [runSentBodies, runWritten, JSVal.truthy]

theorem pushCapped_length_le (xs : List JValue) (b : JValue) (h : xs.length ≤ 3) :
    (pushCapped xs b).length ≤ 3 := by
  simp only [pushCapped]
  split
  · simp only [List.length_tail, List.length_append, List.length_singleton]
    omega
  · next hle =>
    simp only [not_lt, List.length_append, List.length_singleton] at hle
    simpa using hle

theorem pushCapped_eq_drop (xs : List JValue) (b : JValue) (h : xs.length ≤ 3) :
    pushCapped xs b = (xs ++ [b]).drop (xs.length + 1 - 3) := by
  simp only [pushCapped]
  split
  · next hgt =>
    have hx : xs.length = 3 := by
      simp only [List.length_append, List.length_singleton] at hgt
      omega
    rw [hx]
    norm_num [List.drop_one]
  · next hle =>
    have hx : xs.length + 1 - 3 = 0 := by
      simp only [not_lt, List.length_append, List.length_singleton] at hle
      omega
    rw [hx]
    simp

/-!  ### Spec-side reference definitions (§4.2 of the specification)

These follow the specification's words, to be compared with the
source-derived `userPrompt`:  "a formatted list of prior bodies labeled
\"Email N: <body>\" in chronological order (omitted entirely if history is
empty), the total run count, and an explicit output-format directive
requiring the response be a single JSON object with exactly one key
(`email_body`)". -/

/-- Prior bodies labeled "Email N: <body>", `N` counting from `offset + 1`
upward in list (chronological, oldest-first) order. -/
def specLabeledBodies (offset : Nat) : List String → List String
  | [] => []
  | b :: rest => ("Email " ++ toString (offset + 1) ++ ": " ++ b) :: specLabeledBodies (offset + 1) rest

/-- The formatted history list: labeled bodies separated by blank lines;
empty history contributes nothing. -/
def specEmailList (h : List String) : String :=
  String.intercalate "\n\n" (specLabeledBodies 0 h)

/-- The header announcing the history list (present only with history). -/
def specHistoryHeader : String :=
  "Below are the most recent emails you have sent to Senator John Cornyn:\n"

/-- The output-format directive: the response must be a single JSON object
whose only key is `email_body`. -/
def specOutputDirective : String :=
  ".\n\nToday, please compose a brand new letter to Senator Cornyn. The letter should be 100 words or less. \n\nIMPORTANT:\n1) Do NOT include any extraneous text or explanation outside of the JSON.\n2) Only return a JSON object in the format:\n\n\x7b\n  \"email_body\": \"Your new email content here\"\n\x7d\n"

/-- The request string as the specification describes it: history block
(omitted entirely when empty), total run count, output-format directive. -/
def specPrompt (n : Int) (h : List String) : String :=
  "\n"
    ++ (if h = [] then "" else specHistoryHeader)
    ++ "\n\n" ++ specEmailList h
    ++ "\n\nTotal emails sent so far: " ++ toString n
    ++ specOutputDirective

theorem labeledBodies_eq (h : List String) : ∀ i : Nat,
    ((h.map JValue.jstr).enumFrom i).map
      (fun p => "Email " ++ toString (p.1 + 1) ++ ": " ++ jsToString p.2)
    = specLabeledBodies i h := by
  induction h with
  | nil => intro i; rfl
  | cons b rest ih =>
    intro i
    simp only [List.map_cons, List.enumFrom, List.map, specLabeledBodies, jsToString]
    exact congrArg _ (ih (i + 1))

/-- Whether a value is a JavaScript string. -/
def JValue.isString : JValue → Bool
  | JValue.jstr _ => true
  | _ => false

/-!  ### The claims  -/

/-- C1 (amended): the content generator returns the extracted body if and
only if the API reply parses as JSON and its `email_body` field is truthy;
in every other case (API call failure → `null`; unparsable reply, key
absent, or key present with a falsy value → `""`) it signals "no content"
without crashing, and it never uses the raw unparsed reply as the body. -/
theorem generateNewEmail_truthy_extract_spec (parse : String → Option JValue) (raw : String) :
    generateNewEmail parse none = JSVal.null
    ∧ (∀ p v, parse (jsTrim raw) = some p → getField p "email_body" = some v →
        v.truthy = true → generateNewEmail parse (some raw) = JSVal.jval v)
    ∧ (parse (jsTrim raw) = none →
        generateNewEmail parse (some raw) = JSVal.jval (JValue.jstr "")
        ∧ (jsTrim raw ≠ "" →
            generateNewEmail parse (some raw) ≠ JSVal.jval (JValue.jstr (jsTrim raw))))
    ∧ (∀ p, parse (jsTrim raw) = some p → getField p "email_body" = none →
        generateNewEmail parse (some raw) = JSVal.jval (JValue.jstr ""))
    ∧ (∀ p v, parse (jsTrim raw) = some p → getField p "email_body" = some v →
        v.truthy = false → generateNewEmail parse (some raw) = JSVal.jval (JValue.jstr "")) := by
  refine ⟨rfl, ?_, ?_, ?_, ?_⟩
  · intro p v hp hv ht
    simp [generateNewEmail, extractEmailBody, hp, hv, ht]
  · intro hp
    refine ⟨by simp [generateNewEmail, extractEmailBody, hp], fun hne hcontra => ?_⟩
    rw [generateNewEmail, hp] at hcontra
    simp only [extractEmailBody, JSVal.jval.injEq, JValue.jstr.injEq] at hcontra
    exact hne hcontra.symm
  · intro p hp hv
    simp [generateNewEmail, extractEmailBody, hp, hv]
  · intro p v hp hv ht
    simp [generateNewEmail, extractEmailBody, hp, hv, ht]

theorem generateNewEmail_truthy_extract_spec_witness :
    generateNewEmail parseFix (some replyHiRaw) = JSVal.jval (JValue.jstr "Hi")
    ∧ generateNewEmail parseFix (some replyNotJsonRaw) = JSVal.jval (JValue.jstr "")
    ∧ generateNewEmail parseFix none = JSVal.null :=
  ⟨(generateNewEmail_truthy_extract_spec parseFix replyHiRaw).2.1 replyHiVal
      (JValue.jstr "Hi") rfl rfl rfl,
   ((generateNewEmail_truthy_extract_spec parseFix replyNotJsonRaw).2.2.1 rfl).1,
   (generateNewEmail_truthy_extract_spec parseFix replyNotJsonRaw).1⟩

/-- C1 counterexample: the reply `{"email_body": 0}` parses as JSON and
contains the `email_body` key, yet the generator does not return the
extracted body (the number `0`) — it signals "no content" (`""`), because
the code tests the value's truthiness, not the key's presence. -/
theorem generateNewEmail_falsy_value_counterexample :
    parseFix (jsTrim replyZeroRaw) = some replyZeroVal
    ∧ getField replyZeroVal "email_body" = some (JValue.jnum 0)
    ∧ generateNewEmail parseFix (some replyZeroRaw) = JSVal.jval (JValue.jstr "")
    ∧ JSVal.jval (JValue.jstr "") ≠ JSVal.jval (JValue.jnum 0) :=
  ⟨rfl, rfl, rfl, by simp⟩

/-- C2 (amended): a missing store file or store content on which
`JSON.parse` throws yields the default state; but content that parses is
used as-is, even when the expected keys are missing — no schema check is
performed. -/
theorem loadData_soft_failure_spec (parse : String → Option JValue) :
    loadData parse none = defaultData
    ∧ (∀ s, parse s = none → loadData parse (some s) = defaultData)
    ∧ (∀ s v, parse s = some v → loadData parse (some s) = v) := by
  refine ⟨rfl, ?_, ?_⟩
  · intro s hs
    simp [loadData, hs]
  · intro s v hs
    simp [loadData, hs]

theorem loadData_soft_failure_spec_witness :
    loadData parseFix none = defaultData
    ∧ loadData parseFix (some replyNotJsonRaw) = defaultData
    ∧ loadData parseFix (some storeEmptyObjRaw) = JValue.jobj [] :=
  ⟨(loadData_soft_failure_spec parseFix).1,
   (loadData_soft_failure_spec parseFix).2.1 replyNotJsonRaw rfl,
   (loadData_soft_failure_spec parseFix).2.2 storeEmptyObjRaw (JValue.jobj []) rfl⟩

/-- C2 counterexample: the store content `"{}"` is valid JSON missing both
expected keys; the loader yields `{}` — not the default state — and the
run (with a successful generation) then dies on an uncaught `TypeError`
(`data.recent_emails.push` on `undefined`) rather than continuing. -/
theorem loadData_schema_mismatch_counterexample :
    loadData parseFix (some storeEmptyObjRaw) = JValue.jobj []
    ∧ JValue.jobj [] ≠ defaultData
    ∧ runOk (runMain parseFix (some storeEmptyObjRaw) (some replyHiRaw) false false) = false :=
  ⟨rfl, by simp [defaultData], rfl⟩

/-- C4: when generation yields "no content" (a falsy resolved value), the
run exits at `if (!newEmail) return;`: nothing is handed to the mail relay
and no write of the store file is attempted, so the store is unchanged and
its count is not incremented. -/
theorem runMain_no_content_early_exit (parse : String → Option JValue)
    (fileContents apiResult : Option String) (sF wF : Bool)
    (hno : (generateNewEmail parse apiResult).truthy = false) :
    runSentBodies (runMain parse fileContents apiResult sF wF) = []
    ∧ runWritten (runMain parse fileContents apiResult sF wF) = none :=
  runMain_falsy parse fileContents apiResult sF wF hno

theorem runMain_no_content_early_exit_witness :
    (generateNewEmail parseFix none).truthy = false
    ∧ runSentBodies (runMain parseFix (some storeABRaw) none false false) = []
    ∧ runWritten (runMain parseFix (some storeABRaw) none false false) = none :=
  ⟨rfl,
   (runMain_no_content_early_exit parseFix (some storeABRaw) none false false rfl).1,
   (runMain_no_content_early_exit parseFix (some storeABRaw) none false false rfl).2⟩

/-- C10: output extraction does not enforce the single-key reply format:
whenever the reply parses to a JSON object whose `email_body` field is
truthy, that field's value is returned as-is — regardless of any additional
keys and regardless of whether the value is a string. -/
theorem generateNewEmail_ignores_extra_keys (parse : String → Option JValue) (raw : String)
    (fields : List (String × JValue)) (v : JValue)
    (hp : parse (jsTrim raw) = some (JValue.jobj fields))
    (hv : getField (JValue.jobj fields) "email_body" = some v)
    (ht : v.truthy = true) :
    generateNewEmail parse (some raw) = JSVal.jval v := by
  simp [generateNewEmail, extractEmailBody, hp, hv, ht]

theorem generateNewEmail_ignores_extra_keys_witness :
    generateNewEmail parseFix (some replyExtraRaw) = JSVal.jval (JValue.jnum 7) :=
  generateNewEmail_ignores_extra_keys parseFix replyExtraRaw
    [("email_body", JValue.jnum 7), ("extra", JValue.jstr "x")] (JValue.jnum 7) rfl rfl rfl

/-- C3 (amended): for every loaded state whose history has at most 3
entries and every truthy new body, the persisted `recent_emails` list has at
most 3 entries and equals the last 3 elements of the original-plus-new
sequence (oldest dropped, order preserved).  (For loaded histories that
already exceed 3 entries the code only evicts one element, so the cap does
not hold for arbitrary loaded states.) -/
theorem runMain_history_cap_spec (parse : String → Option JValue)
    (fileContents apiResult : Option String) (sF wF : Bool)
    (fs : List (String × JValue)) (xs : List JValue) (body : JValue)
    (hload : loadData parse fileContents = JValue.jobj fs)
    (hrec : getField (JValue.jobj fs) "recent_emails" = some (JValue.jarr xs))
    (hgen : generateNewEmail parse apiResult = JSVal.jval body)
    (ht : body.truthy = true)
    (hlen : xs.length ≤ 3) :
    ∃ d2, runWritten (runMain parse fileContents apiResult sF wF) = some d2
      ∧ getField d2 "recent_emails" = some (JValue.jarr (pushCapped xs body))
      ∧ (pushCapped xs body).length ≤ 3
      ∧ pushCapped xs body = (xs ++ [body]).drop (xs.length + 1 - 3) := by
  refine ⟨setField (setField (JValue.jobj fs) "count" (jsAdd1 (getField (JValue.jobj fs) "count")))
      "recent_emails" (JValue.jarr (pushCapped xs body)), ?_, ?_,
      pushCapped_length_le xs body hlen, pushCapped_eq_drop xs body hlen⟩
  · rw [runMain_good parse fileContents apiResult sF wF fs xs body hload hrec hgen ht]
    rfl
  · exact getField_setField_self
      (setFields fs "count" (jsAdd1 (getField (JValue.jobj fs) "count")))
      "recent_emails" (JValue.jarr (pushCapped xs body))

theorem runMain_history_cap_spec_witness :
    ∃ d2, runWritten (runMain parseFix (some storeABCRaw) (some replyDRaw) false false) = some d2
      ∧ getField d2 "recent_emails" = some (JValue.jarr
          (pushCapped [JValue.jstr "A", JValue.jstr "B", JValue.jstr "C"] (JValue.jstr "D")))
      ∧ (pushCapped [JValue.jstr "A", JValue.jstr "B", JValue.jstr "C"] (JValue.jstr "D")).length ≤ 3
      ∧ pushCapped [JValue.jstr "A", JValue.jstr "B", JValue.jstr "C"] (JValue.jstr "D")
        = ([JValue.jstr "A", JValue.jstr "B", JValue.jstr "C"] ++ [JValue.jstr "D"]).drop
            ([JValue.jstr "A", JValue.jstr "B", JValue.jstr "C"].length + 1 - 3) :=
  runMain_history_cap_spec parseFix (some storeABCRaw) (some replyDRaw) false false
    [("count", JValue.jnum 5),
      ("recent_emails", JValue.jarr [JValue.jstr "A", JValue.jstr "B", JValue.jstr "C"])]
    [JValue.jstr "A", JValue.jstr "B", JValue.jstr "C"] (JValue.jstr "D")
    rfl rfl rfl rfl (by decide)

/-- C3 counterexample: a loaded history of 4 entries plus a new body is
persisted with 4 entries — `push` then a single `shift` only evicts one
element, so the "never exceeds 3" invariant fails for arbitrary loaded
states. -/
theorem runMain_history_overflow_counterexample :
    runWritten (runMain parseFix (some storeABCDRaw) (some replyERaw) false false)
      = some (JValue.jobj [("count", JValue.jnum 1),
          ("recent_emails", JValue.jarr
            [JValue.jstr "B", JValue.jstr "C", JValue.jstr "D", JValue.jstr "E"])])
    ∧ ¬ ([JValue.jstr "B", JValue.jstr "C", JValue.jstr "D", JValue.jstr "E"].length ≤ 3) :=
  ⟨rfl, by decide⟩

/-- C5: the two end-to-end scenarios of §8 of the specification: store
`{count: 2, recent_emails: [A, B]}` with reply `{"email_body": "C"}` sends
exactly one mail with body `C` and persists `{count: 3, recent_emails:
[A, B, C]}`; store `{count: 5, recent_emails: [A, B, C]}` with reply
`{"email_body": "D"}` persists `{count: 6, recent_emails: [B, C, D]}`. -/
theorem runMain_end_to_end_scenarios :
    runSentBodies (runMain parseFix (some storeABRaw) (some replyCRaw) false false)
      = [JValue.jstr "C"]
    ∧ runWritten (runMain parseFix (some storeABRaw) (some replyCRaw) false false)
      = some (JValue.jobj [("count", JValue.jnum 3),
          ("recent_emails", JValue.jarr [JValue.jstr "A", JValue.jstr "B", JValue.jstr "C"])])
    ∧ runSentBodies (runMain parseFix (some storeABCRaw) (some replyDRaw) false false)
      = [JValue.jstr "D"]
    ∧ runWritten (runMain parseFix (some storeABCRaw) (some replyDRaw) false false)
      = some (JValue.jobj [("count", JValue.jnum 6),
          ("recent_emails", JValue.jarr [JValue.jstr "B", JValue.jstr "C", JValue.jstr "D"])]) :=
  ⟨rfl, rfl, rfl, rfl⟩

/-- C6: a mail-relay failure is caught inside `sendEmail` and changes
nothing: the run's outcome is identical with and without the failure,
exactly one delivery attempt is made (no retry), the run completes
normally, and the updated state (count incremented, new body appended with
the cap applied) is still written. -/
theorem runMain_send_failure_still_persists (parse : String → Option JValue)
    (fileContents apiResult : Option String) (wF : Bool)
    (fs : List (String × JValue)) (xs : List JValue) (body : JValue)
    (hload : loadData parse fileContents = JValue.jobj fs)
    (hrec : getField (JValue.jobj fs) "recent_emails" = some (JValue.jarr xs))
    (hgen : generateNewEmail parse apiResult = JSVal.jval body)
    (ht : body.truthy = true) :
    runMain parse fileContents apiResult true wF = runMain parse fileContents apiResult false wF
    ∧ runSentBodies (runMain parse fileContents apiResult true wF) = [body]
    ∧ runOk (runMain parse fileContents apiResult true wF) = true
    ∧ runWritten (runMain parse fileContents apiResult true wF)
      = some (setField (setField (JValue.jobj fs) "count" (jsAdd1 (getField (JValue.jobj fs) "count")))
          "recent_emails" (JValue.jarr (pushCapped xs body))) := by
  have h1 := runMain_good parse fileContents apiResult true wF fs xs body hload hrec hgen ht
  have h2 := runMain_good parse fileContents apiResult false wF fs xs body hload hrec hgen ht
  rw [h1, h2]
  exact ⟨rfl, by simp [runSentBodies, sendEmail], rfl, rfl⟩

theorem runMain_send_failure_still_persists_witness :
    runMain parseFix (some storeABRaw) (some replyHiRaw) true false
      = runMain parseFix (some storeABRaw) (some replyHiRaw) false false
    ∧ runSentBodies (runMain parseFix (some storeABRaw) (some replyHiRaw) true false)
      = [JValue.jstr "Hi"]
    ∧ runOk (runMain parseFix (some storeABRaw) (some replyHiRaw) true false) = true
    ∧ runWritten (runMain parseFix (some storeABRaw) (some replyHiRaw) true false)
      = some (setField (setField storeABVal "count" (jsAdd1 (getField storeABVal "count")))
          "recent_emails" (JValue.jarr
            (pushCapped [JValue.jstr "A", JValue.jstr "B"] (JValue.jstr "Hi")))) :=
  runMain_send_failure_still_persists parseFix (some storeABRaw) (some replyHiRaw) false
    [("count", JValue.jnum 2),
      ("recent_emails", JValue.jarr [JValue.jstr "A", JValue.jstr "B"])]
    [JValue.jstr "A", JValue.jstr "B"] (JValue.jstr "Hi") rfl rfl rfl rfl

/-- C8 (amended): for every store whose loaded value is an object with an
array `recent_emails` (in particular the default state), no combination of
external-call failures (state read, generation API, mail relay, state
write) terminates the run abnormally; and a state-write failure is caught
with no retry and no rollback — it changes neither the attempted send nor
the attempted store content.  (A store that parses to a value without an
array `recent_emails` can, however, crash the run.) -/
theorem runMain_external_failures_caught (parse : String → Option JValue)
    (fileContents apiResult : Option String) (sF wF : Bool)
    (fs : List (String × JValue)) (xs : List JValue)
    (hload : loadData parse fileContents = JValue.jobj fs)
    (hrec : getField (JValue.jobj fs) "recent_emails" = some (JValue.jarr xs)) :
    runOk (runMain parse fileContents apiResult sF wF) = true
    ∧ runSentBodies (runMain parse fileContents apiResult sF true)
      = runSentBodies (runMain parse fileContents apiResult sF false)
    ∧ runWritten (runMain parse fileContents apiResult sF true)
      = runWritten (runMain parse fileContents apiResult sF false) := by
  refine ⟨?_, (runMain_writeFails_independent parse fileContents apiResult sF).1,
    (runMain_writeFails_independent parse fileContents apiResult sF).2⟩
  cases hg : generateNewEmail parse apiResult with
  | null =>
    rw [runMain_early parse fileContents apiResult sF wF fs xs hload hrec (by rw [hg]; rfl)]
    rfl
  | jval body =>
    by_cases ht : body.truthy = true
    · rw [runMain_good parse fileContents apiResult sF wF fs xs body hload hrec hg ht]
      rfl
    · have hb : body.truthy = false := by
        cases hbt : body.truthy
        · rfl
        · exact absurd hbt ht
      rw [runMain_early parse fileContents apiResult sF wF fs xs hload hrec
        (by rw [hg]; simpa [JSVal.truthy] using hb)]
      rfl

theorem runMain_external_failures_caught_witness :
    runOk (runMain parseFix none none true true) = true
    ∧ runSentBodies (runMain parseFix none none true true)
      = runSentBodies (runMain parseFix none none true false)
    ∧ runWritten (runMain parseFix none none true true)
      = runWritten (runMain parseFix none none true false) :=
  runMain_external_failures_caught parseFix none none true true
    [("count", JValue.jnum 0), ("recent_emails", JValue.jarr [])] [] rfl rfl

/-- C8 counterexample: the store `{"count": 1}` parses fine, the read
succeeds and every external call succeeds, yet the run terminates
abnormally — `data.recent_emails.push` on `undefined` is an uncaught
`TypeError` — so it is not true that no error terminates the process. -/
theorem runMain_schema_crash_counterexample :
    runOk (runMain parseFix (some storeCountOnlyRaw) (some replyHiRaw) false false) = false :=
  rfl

/-- C9 (amended): the mail dispatcher is only ever invoked with a truthy
body: an empty-string (or any falsy) `email_body` is treated as no content
and aborts the run before sending.  (The body need not be a string: any
truthy JSON value is passed through, see the counterexample.) -/
theorem runMain_sent_bodies_truthy (parse : String → Option JValue)
    (fileContents apiResult : Option String) (sF wF : Bool) (b : JValue)
    (hb : b ∈ runSentBodies (runMain parse fileContents apiResult sF wF)) :
    b.truthy = true := by
  simp only [runMain] at hb
  repeat' split at hb
  all_goals simp_all [runSentBodies, sendEmail]

theorem runMain_sent_bodies_truthy_witness :
    JValue.truthy (JValue.jstr "C") = true :=
  runMain_sent_bodies_truthy parseFix (some storeABRaw) (some replyCRaw) false false
    (JValue.jstr "C")
    (by
      have h : runSentBodies (runMain parseFix (some storeABRaw) (some replyCRaw) false false)
          = [JValue.jstr "C"] := rfl
      rw [h]
      exact List.mem_singleton_self _)

/-- C9 counterexample: the reply `{"email_body": 7, "extra": "x"}` makes
the run hand the number `7` — not a string — to the mail dispatcher, so it
is not true that only non-empty strings are ever passed to `sendEmail`. -/
theorem runMain_nonstring_body_counterexample :
    runSentBodies (runMain parseFix (some storeABRaw) (some replyExtraRaw) false false)
      = [JValue.jnum 7]
    ∧ JValue.isString (JValue.jnum 7) = false :=
  ⟨rfl, rfl⟩

theorem lastThreeEmailsText_map_jstr (h : List String) :
    lastThreeEmailsText (h.map JValue.jstr) = specEmailList h := by
  simp only [lastThreeEmailsText, specEmailList, List.enum]
  rw [labeledBodies_eq h 0]

/-- C7: for every loaded state (count `n`, history `h`), the request string
is exactly the one the specification describes: the prior bodies labeled
"Email N: <body>" oldest-first (with the announcing header), the whole list
omitted when the history is empty, the total run count, and the JSON
output-format directive requiring the single key `email_body`. -/
theorem userPrompt_matches_spec (n : Int) (h : List String) :
    userPrompt (some (JValue.jnum n)) (some (JValue.jarr (h.map JValue.jstr)))
      = Except.ok (specPrompt n h) := by
  rw [userPrompt_arr]
  cases h with
  | nil =>
    have he : specEmailList ([] : List String) = "" := rfl
    simp [specPrompt, he, promptText, jsToStringOpt, jsToString, specOutputDirective]
  | cons b rest =>
    have hpos : 0 < ((b :: rest).map JValue.jstr).length := by simp
    rw [if_pos hpos, lastThreeEmailsText_map_jstr]
    simp [promptText, specPrompt, jsToStringOpt, jsToString, specHistoryHeader,
      specOutputDirective]

end DailyEmail
